import Mathlib

/-!
Verification of the chromium-futures library (`src/implementation/future.h`,
`shared_promise.h`, `shared_future.h`).

The C++ code is shallowly embedded as an operational model.  A `World` holds
two heaps (one for `Future<T>` objects, one for `Promise<T>` objects, both
addressed by natural numbers), the queue of tasks posted to the current
sequenced task runner, a log of user-callback invocations, and a `fatal` flag
recording that a `CHECK` fired (after which the process is dead, so every
operation is a no-op).

Modelling conventions, each justified by the C++ semantics:

* `DCHECK_IS_ON()` is a parameter `dck : Bool` of every operation that
  contains a `DCHECK` or uses `internal::FutureActiveState` (whose checking
  variant exists only in DCHECK builds).  `CHECK` is fatal in every build and
  therefore does not depend on `dck`.
* `std::move` applied to a `std::optional` member (as in
  `GetValueSynchronously`, `value_ = std::move(other.value_)` and
  `std::optional<T> value = std::move(value_);`) move-constructs or
  move-assigns the destination and leaves the SOURCE optional ENGAGED,
  holding a moved-from `T`.  For trivially copyable value types (such as
  `int`) a moved-from value is bit-identical to the original, so the model
  keeps the source optional engaged with the same value.
* `base::OnceCallback` moved out of a member (`std::move(callback_)`) leaves
  the member null.
* Sequence-checker assertions (`DCHECK_CALLED_ON_VALID_SEQUENCE`) concern
  cross-thread usage, which is outside this single-sequence model.
* Task runners post to a single FIFO queue (the current sequenced task
  runner); draining the queue models `RunUntilIdle`.
-/

namespace ChromiumFutures

/-- Embedding of `Future<T>` (future.h lines 76-187): the stored
`std::optional<T> value_`, the back-pointer `raw_ptr<Promise<T>> promise_ptr_`
(as an optional promise-heap address), and the `bool active_` field of
`internal::FutureActiveState` (present only in DCHECK builds; the model keeps
the field but reads and writes it only when `dck` is set). -/
structure FutureObj (V : Type) where
  value : Option V
  promisePtr : Option Nat
  active : Bool
deriving Repr

/-- Callbacks that can be bound into a `base::OnceCallback<void(T)>` in the
modelled scenarios: an abstract user continuation identified by a numeric id
(its invocations are logged observably), or the library-internal
`Future::TransformFutureValue` helper (future.h lines 161-166) bound to a
promise address and a pure transform. -/
inductive Cb (V : Type) where
  | user (id : Nat)
  | transformFutureValue (p : Nat) (f : V → V)

/-- Embedding of `Promise<T>` (future.h lines 189-270): the owned
`std::optional<Future<T>> future_` (an address into the future heap, since the
contained future is a real object with a location), the back-pointer
`raw_ptr<Future<T>> future_ptr_`, the registered
`base::OnceCallback<void(T)> callback_`, and the `FutureActiveState` flag. -/
structure PromiseObj (V : Type) where
  ownedFuture : Option Nat
  futurePtr : Option Nat
  callback : Option (Cb V)
  active : Bool

/-- The whole modelled machine state: both heaps with their bump allocators,
the FIFO of tasks posted to the current sequenced task runner (callback plus
the value it was bound with), the observable log of user-callback invocations,
and whether a `CHECK`/`DCHECK` has fired. -/
structure World (V : Type) where
  nextF : Nat
  futures : Nat → Option (FutureObj V)
  nextP : Nat
  promises : Nat → Option (PromiseObj V)
  tasks : List (Cb V × V)
  calls : List (Nat × V)
  fatal : Bool

/-- The initial state: empty heaps, nothing posted, nothing called. -/
def emptyWorld (V : Type) : World V :=
  { nextF := 0, futures := fun _ => none, nextP := 0, promises := fun _ => none,
    tasks := [], calls := [], fatal := false }

/-- Replace the future-heap slot `a`. -/
def setF (a : Nat) (obj : Option (FutureObj V)) (w : World V) : World V :=
  { w with futures := fun x => if x = a then obj else w.futures x }

/-- Replace the promise-heap slot `a`. -/
def setP (a : Nat) (obj : Option (PromiseObj V)) (w : World V) : World V :=
  { w with promises := fun x => if x = a then obj else w.promises x }

/-- Update the future object at slot `a`, if the slot is live. -/
def updF (a : Nat) (f : FutureObj V → FutureObj V) (w : World V) : World V :=
  match w.futures a with
  | some F => setF a (some (f F)) w
  | none => w

/-- Update the promise object at slot `a`, if the slot is live. -/
def updP (a : Nat) (f : PromiseObj V → PromiseObj V) (w : World V) : World V :=
  match w.promises a with
  | some P => setP a (some (f P)) w
  | none => w

/-- The `promise_ptr_` of the future at `a` (`none` when the slot is dead or
the pointer is null). -/
def fPtr (w : World V) (a : Nat) : Option Nat :=
  match w.futures a with
  | some F => F.promisePtr
  | none => none

/-- The `future_ptr_` of the promise at `a` (`none` when the slot is dead or
the pointer is null). -/
def pPtr (w : World V) (a : Nat) : Option Nat :=
  match w.promises a with
  | some P => P.futurePtr
  | none => none

/-- `Promise<T>::Promise()` (future.h lines 192-194): constructs the owned
future inside `future_`, points `future_ptr_` at it and the future's
`promise_ptr_` back at the promise.  Returns the new promise address. -/
def newPromise (w : World V) : Nat × World V :=
  let fa := w.nextF
  let pa := w.nextP
  (pa,
    { w with
      nextF := fa + 1,
      futures := fun x =>
        if x = fa then some { value := none, promisePtr := some pa, active := true }
        else w.futures x,
      nextP := pa + 1,
      promises := fun x =>
        if x = pa then
          some { ownedFuture := some fa, futurePtr := some fa, callback := none,
                 active := true }
        else w.promises x })

/-- `Future<T>::operator=(Future&& other)` body (future.h lines 89-100) with
`this` at slot `d` and `other` at slot `s`: guarded by `this != &other`;
`value_ = std::move(other.value_)` (the source optional stays engaged),
`promise_ptr_ = std::exchange(other.promise_ptr_, nullptr)`,
`active_state_ = std::move(other.active_state_)` (source becomes inactive),
then if the pointer is non-null the linked promise's `future_ptr_` is
re-pointed at `d`. -/
def moveFutureInto (s d : Nat) (w : World V) : World V :=
  if s = d then w
  else
    match w.futures s, w.futures d with
    | some S, some _ =>
      let w1 := setF d (some { value := S.value, promisePtr := S.promisePtr,
                               active := S.active }) w
      let w2 := setF s (some { value := S.value, promisePtr := none,
                               active := false }) w1
      match S.promisePtr with
      | some p => updP p (fun P => { P with futurePtr := some d }) w2
      | none => w2
    | _, _ => w

/-- `Future<T>::Future(Future&& other)` (future.h line 87): default-construct
the members at a fresh slot, then run the move-assignment body. -/
def moveFutureConstruct (s : Nat) (w : World V) : Nat × World V :=
  let d := w.nextF
  let w1 := setF d (some { value := none, promisePtr := none, active := true })
      { w with nextF := d + 1 }
  (d, moveFutureInto s d w1)

/-- `Future<T>::~Future()` (future.h lines 102-107): null the linked
promise's `future_ptr_` (if any), then the slot dies. -/
def destroyFuture (a : Nat) (w : World V) : World V :=
  match w.futures a with
  | some F =>
    let w1 :=
      match F.promisePtr with
      | some p => updP p (fun P => { P with futurePtr := none }) w
      | none => w
    setF a none w1
  | none => w

/-- `Promise<T>::operator=(Promise&& other)` body (future.h lines 201-213)
with `this` at slot `d` and `other` at slot `s`.  Step 1 is the
`std::optional<Future<T>>` move-assignment of `future_`, which (a) when both
sides are engaged move-assigns the contained futures, (b) when only the
source is engaged move-constructs into fresh storage inside `d`, (c) when
only the destination is engaged destroys its contained future; in cases (a)
and (b) the source optional remains engaged holding a moved-from future.
Steps 2-4 exchange `future_ptr_` (reading the source AFTER step 1, whose
pointer fix-up may have redirected it), move `callback_` and the active
state, and finally re-point the linked future's `promise_ptr_` at `d`. -/
def movePromiseInto (s d : Nat) (w : World V) : World V :=
  if s = d then w
  else
    match w.promises s, w.promises d with
    | some S, some D =>
      let step1 : Option Nat × World V :=
        match D.ownedFuture, S.ownedFuture with
        | some df, some sf => (some df, moveFutureInto sf df w)
        | none, some sf =>
          let r := moveFutureConstruct sf w
          (some r.1, r.2)
        | some df, none => (none, destroyFuture df w)
        | none, none => (none, w)
      let dOwned := step1.1
      let w1 := step1.2
      match w1.promises s, w1.promises d with
      | some S1, some D1 =>
        let D2 : PromiseObj V :=
          { D1 with ownedFuture := dOwned, futurePtr := S1.futurePtr,
                    callback := S1.callback, active := S1.active }
        let S2 : PromiseObj V :=
          { S1 with futurePtr := none, callback := none, active := false }
        let w2 := setP d (some D2) w1
        let w3 := setP s (some S2) w2
        match S1.futurePtr with
        | some f => updF f (fun F => { F with promisePtr := some d }) w3
        | none => w3
      | _, _ => w1
    | _, _ => w

/-- `Promise<T>::Promise(Promise&& other)` (future.h line 199):
default-construct the members at a fresh slot, then run the move-assignment
body. -/
def movePromiseConstruct (s : Nat) (w : World V) : Nat × World V :=
  let d := w.nextP
  let w1 := setP d (some { ownedFuture := none, futurePtr := none,
                           callback := none, active := true })
      { w with nextP := d + 1 }
  (d, movePromiseInto s d w1)

/-- `Promise<T>::~Promise()` (future.h lines 215-220): the body nulls the
linked future's `promise_ptr_` (if any); afterwards the member destructor of
`future_` destroys the owned future when it is still engaged. -/
def destroyPromise (a : Nat) (w : World V) : World V :=
  match w.promises a with
  | some P =>
    let w1 :=
      match P.futurePtr with
      | some f => updF f (fun F => { F with promisePtr := none }) w
      | none => w
    let w2 :=
      match P.ownedFuture with
      | some f => destroyFuture f w1
      | none => w1
    setP a none w2
  | none => w

/-- `Promise<T>::GetFuture()` (future.h lines 224-230): `CHECK(future_)` is
fatal in EVERY build when the owned future is gone; otherwise the future is
move-constructed out (fresh slot for the returned handle), `future_.reset()`
destroys the moved-from contained future, and the promise keeps only its
re-pointed `future_ptr_`.  Returns the address of the returned future. -/
def getFuture (p : Nat) (w : World V) : Nat × World V :=
  if w.fatal then (0, w)
  else
    match w.promises p with
    | none => (0, w)
    | some P =>
      match P.ownedFuture with
      | none => (0, { w with fatal := true })
      | some s =>
        let r := moveFutureConstruct s w
        let w2 := destroyFuture s r.2
        (r.1, updP p (fun Q => { Q with ownedFuture := none }) w2)

/-- `Future<T>::GetValueSynchronously()` (future.h line 110):
`return std::move(value_);` move-constructs the returned optional from the
member.  Crucially, moving FROM a `std::optional` does NOT disengage it: the
member stays engaged, now holding a moved-from `T` (identical to the original
for trivially copyable `T`).  Hence the call returns the stored value and
leaves the world unchanged. -/
def getValueSynchronously (a : Nat) (w : World V) : Option V :=
  match w.futures a with
  | some F => F.value
  | none => none

/-- `Future<T>::SetValue(T)` (future.h lines 154-159, private, called from the
promise side): `DCHECK(!value_)`, store the value, null `promise_ptr_`. -/
def futureSetValue (dck : Bool) (a : Nat) (v : V) (w : World V) : World V :=
  if w.fatal then w
  else
    match w.futures a with
    | some F =>
      if dck && F.value.isSome then { w with fatal := true }
      else setF a (some { F with value := some v, promisePtr := none }) w
    | none => w

/-- `Promise<T>::SetCallback` (future.h lines 242-247): `DCHECK(!callback_)`,
store the callback, null `future_ptr_`. -/
def setCallback (dck : Bool) (p : Nat) (cb : Cb V) (w : World V) : World V :=
  if w.fatal then w
  else
    match w.promises p with
    | some P =>
      if dck && P.callback.isSome then { w with fatal := true }
      else setP p (some { P with callback := some cb, futurePtr := none }) w
    | none => w

/-- `Future<T>::AndThen(base::OnceCallback<void(T)>)` (future.h lines
114-125): `active_state_.SetInactive()` (a `CHECK` that exists only in DCHECK
builds); if a value is stored it is moved into a local optional (the member
stays engaged with a moved-from value) and the callback is POSTED with it;
otherwise, if the promise is still linked, the callback is handed to the
promise via `SetCallback` and the link is cleared; otherwise nothing
happens. -/
def futureAndThen (dck : Bool) (a : Nat) (cb : Cb V) (w : World V) : World V :=
  if w.fatal then w
  else
    match w.futures a with
    | some F =>
      if dck && !F.active then { w with fatal := true }
      else
        let w1 := if dck then setF a (some { F with active := false }) w else w
        match F.value with
        | some v => { w1 with tasks := w1.tasks ++ [(cb, v)] }
        | none =>
          match F.promisePtr with
          | some p =>
            updF a (fun G => { G with promisePtr := none })
              (setCallback dck p cb w1)
          | none => w1
    | none => w

/-- `Promise<T>::SetValue(T value, bool with_side_effects)` (future.h lines
249-263), parameterised by the function `run` used to invoke a callback
synchronously (tying the knot with `runCb` below): `SetInactive`; if a
callback is registered it is moved out and either run synchronously
(`with_side_effects`) or posted; otherwise, if the future is still linked,
the value is stored into it and the link is cleared. -/
def promiseSetValueAux (run : Cb V → V → World V → World V) (dck : Bool)
    (p : Nat) (v : V) (se : Bool) (w : World V) : World V :=
  if w.fatal then w
  else
    match w.promises p with
    | some P =>
      if dck && !P.active then { w with fatal := true }
      else
        let w1 := if dck then setP p (some { P with active := false }) w else w
        match P.callback with
        | some cb =>
          let w2 := updP p (fun Q => { Q with callback := none }) w1
          if se then run cb v w2
          else { w2 with tasks := w2.tasks ++ [(cb, v)] }
        | none =>
          match P.futurePtr with
          | some f =>
            futureSetValue dck f v (updP p (fun Q => { Q with futurePtr := none }) w1)
          | none => w1
    | none => w

/-- Run one callback with a value.  `Cb.user` is an abstract consumer
continuation: its invocation is appended to the observable log.
`Cb.transformFutureValue p f` is `Future::TransformFutureValue` (future.h
lines 161-166): it calls `promise.SetValueWithSideEffects(f(value))` on the
bound promise.  `fuel` bounds the synchronous recursion through
`SetValueWithSideEffects`. -/
def runCb : Nat → Bool → Cb V → V → World V → World V
  | 0, _, _, _, w => w
  | _ + 1, _, Cb.user id, v, w => { w with calls := w.calls ++ [(id, v)] }
  | fuel + 1, dck, Cb.transformFutureValue p f, v, w =>
    promiseSetValueAux (runCb fuel dck) dck p (f v) true w

/-- `Promise<T>::SetValue` / `SetValueWithSideEffects` (future.h lines 233,
237, 249-263), with `runCb` as the synchronous invoker. -/
def promiseSetValue (fuel : Nat) (dck : Bool) (p : Nat) (v : V) (se : Bool)
    (w : World V) : World V :=
  promiseSetValueAux (runCb fuel dck) dck p v se w

/-- Drain the posted-task queue in FIFO order, as `RunUntilIdle` does; tasks
posted while running go to the back.  Stops if a check fired. -/
def drainTasks : Nat → Bool → World V → World V
  | 0, _, w => w
  | fuel + 1, dck, w =>
    if w.fatal then w
    else
      match w.tasks with
      | [] => w
      | (cb, v) :: rest => drainTasks fuel dck (runCb fuel dck cb v { w with tasks := rest })

/-- `Future<T>::Transform` (future.h lines 140-147): create a fresh
promise/future pair, attach `TransformFutureValue` (bound to the new promise
and the pure transform) to this future, and return the new future. -/
def transform (dck : Bool) (a : Nat) (f : V → V) (w : World V) : Nat × World V :=
  let r := newPromise w
  let r2 := getFuture r.1 r.2
  (r2.1, futureAndThen dck a (Cb.transformFutureValue r.1 f) r2.2)

/-- The canonical linked pair: a fresh promise in an empty world, its future
obtained with `GetFuture`.  Returns (future address, promise address,
world). -/
def pairWorld (V : Type) : Nat × Nat × World V :=
  let r := newPromise (emptyWorld V)
  let r2 := getFuture r.1 r.2
  (r2.1, r.1, r2.2)

/-- Scenario for C1, order A: on the canonical pair, `SetValue(v)` first
(the deferred `Promise::SetValue`, future.h line 233), then `AndThen` with an
abstract consumer callback. -/
def c1OrderA (V : Type) (dck : Bool) (v : V) : World V :=
  let r := pairWorld V
  futureAndThen dck r.1 (Cb.user 0) (promiseSetValue 9 dck r.2.1 v false r.2.2)

/-- Scenario for C1, order B: `AndThen` first, then `SetValue(v)`. -/
def c1OrderB (V : Type) (dck : Bool) (v : V) : World V :=
  let r := pairWorld V
  promiseSetValue 9 dck r.2.1 v false (futureAndThen dck r.1 (Cb.user 0) r.2.2)

/-- Scenario for C2: on the canonical pair, `SetValue(v1)` succeeds, then
`SetValue(v2)` is attempted on the same promise identity. -/
def c2Double (V : Type) (dck : Bool) (v1 v2 : V) : World V :=
  let r := pairWorld V
  promiseSetValue 9 dck r.2.1 v2 false (promiseSetValue 9 dck r.2.1 v1 false r.2.2)

/-- Scenario for C3: the canonical pair, whose promise is destroyed without
ever settling, followed by `AndThen` on the surviving future. -/
def c3Dangling (V : Type) (dck : Bool) : World V :=
  let r := pairWorld V
  futureAndThen dck r.1 (Cb.user 0) (destroyPromise r.2.1 r.2.2)

/-- Scenario for C4: the canonical pair settled with `v` (so the future at
address `(pairWorld V).1` holds an arrived value). -/
def c4Settled (V : Type) (dck : Bool) (v : V) : World V :=
  let r := pairWorld V
  promiseSetValue 9 dck r.2.1 v false r.2.2

/-- The canonical settled-pair configuration, written out field by field: the
state reached by `pairWorld` followed by `SetValue(v)` (see `c4Settled`; the
helper theorem `c4Settled_agrees_c8Start` below proves the agreement on every
observable field).  The future at address 1 holds the arrived value and is
unlinked; the promise at address 0 is settled (inactive in DCHECK builds) and
unlinked. -/
def c8Start (V : Type) (dck : Bool) (v : V) : World V :=
  { nextF := 2,
    futures := fun x =>
      if x = 1 then some { value := some v, promisePtr := none, active := true }
      else none,
    nextP := 1,
    promises := fun x =>
      if x = 0 then
        some { ownedFuture := none, futurePtr := none, callback := none,
               active := !dck }
      else none,
    tasks := [], calls := [], fatal := false }

/-- Scenario for C8: on the settled pair, `future.Transform(f)` chained with
`.AndThen(g)` where `g` is the abstract consumer callback.  `transform`
allocates its internal promise at address 1 and returns the future at
address 3. -/
def c8Pipeline (V : Type) (dck : Bool) (f : V → V) (v : V) : World V :=
  let t := transform dck 1 f (c8Start V dck v)
  futureAndThen dck t.1 (Cb.user 0) t.2

/-- Scenario for C10: the first `GetFuture` call on a fresh promise
(promise address 0 in an otherwise empty world). -/
def c10First (V : Type) : Nat × World V :=
  let r := newPromise (emptyWorld V)
  getFuture r.1 r.2

/-- Scenario for C10: a second `GetFuture` call on the same promise. -/
def c10Second (V : Type) : World V :=
  (getFuture 0 (c10First V).2).2

/-! ### SharedPromise (shared_promise.h)

`SharedPromise<T>` copies all share one reference-counted `State` holding
`absl::optional<Promise<T>> promise_`; `SharedPromise::SetValue` posts
`State::SetValue` to the state's owning sequenced task runner, so calls from
all copies are serialized and applied in post order.  The model below applies
a sequence of `State::SetValue` calls to the shared state directly. -/

/-- `SharedPromise<T>::State::SetValue` (shared_promise.h lines 48-54): if
the underlying promise is still held, settle it with the deferred
`Promise::SetValue` and clear (`promise_.reset()`); otherwise do nothing.
The state is the optional address of the underlying promise, paired with the
world. -/
def spStateSetValue (dck : Bool) (s : Option Nat × World V) (v : V) :
    Option Nat × World V :=
  match s.1 with
  | some pa => (none, promiseSetValue 9 dck pa v false s.2)
  | none => s

/-- Setup for C5: the canonical pair with an abstract consumer attached via
`AndThen`, then the promise handed to a `SharedPromise` whose state holds it
(`State::State(Promise<T>)`, shared_promise.h line 46). -/
def c5Setup (V : Type) (dck : Bool) : Option Nat × World V :=
  let r := pairWorld V
  (some r.2.1, futureAndThen dck r.1 (Cb.user 0) r.2.2)

/-- C5 scenario: apply a whole sequence of `State::SetValue` calls (coming
from arbitrary `SharedPromise` copies, serialized on the owning sequence). -/
def c5Run (V : Type) (dck : Bool) (vs : List V) : Option Nat × World V :=
  vs.foldl (spStateSetValue dck) (c5Setup V dck)

/-! ### SharedFuture (shared_future.h)

All copies of a `SharedFuture<T>` share one reference-counted `State`
(shared_future.h lines 98-142) whose mutations (`SetValue` from the wrapped
future, `AddListener` from `SharedFuture::AndThen`) are serialized on the
state's owning sequenced task runner.  The model below runs a serialized
sequence of those two events against the state, recording every
`PostTask(BindOnce(&State::RunCompleteCallback, ...))` as an `SFPost`
(target task runner, listener callback id, delivered value). -/

/-- A registered listener (shared_future.h lines 93-96): the `on_complete`
callback (abstract id) and the task runner it was registered from. -/
structure SFListener where
  onComplete : Nat
  runner : Nat
deriving Repr, DecidableEq

/-- The shared state: `std::optional<T> value_` and the pending
`std::list<Listener> listeners_`. -/
structure SFState (V : Type) where
  value : Option V
  listeners : List SFListener

/-- A posted `RunCompleteCallback` task: which runner it was posted to, which
listener callback it will run, and the value delivered (by const reference to
the state's stored value). -/
structure SFPost (V : Type) where
  runner : Nat
  onComplete : Nat
  val : V
deriving Repr, DecidableEq

/-- The dispatch of one listener: post `RunCompleteCallback(on_complete,
*value_)` to the listener's own task runner. -/
def deliver (v : V) (l : SFListener) : SFPost V :=
  { runner := l.runner, onComplete := l.onComplete, val := v }

/-- `SharedFuture<T>::State::SetValue` (shared_future.h lines 100-116): a
second settlement is ignored; the first stores the value, posts every pending
listener in list order to its own task runner, and clears the pending
list. -/
def sfSetValue (v : V) (s : SFState V) : SFState V × List (SFPost V) :=
  if s.value.isSome then (s, [])
  else ({ value := some v, listeners := [] }, s.listeners.map (deliver v))

/-- `SharedFuture<T>::State::AddListener` (shared_future.h lines 118-128): if
the value is already known the listener is immediately POSTED (to its own
task runner), never invoked inline; otherwise it is appended to the pending
list. -/
def sfAddListener (l : SFListener) (s : SFState V) : SFState V × List (SFPost V) :=
  match s.value with
  | some v => (s, [deliver v l])
  | none => ({ s with listeners := s.listeners ++ [l] }, [])

/-- One serialized event on the shared state. -/
inductive SFEvent (V : Type) where
  | setValue (v : V)
  | addListener (l : SFListener)

/-- Whether an event is a listener registration. -/
def isAdd : SFEvent V → Bool
  | SFEvent.addListener _ => true
  | SFEvent.setValue _ => false

/-- The listeners registered by a sequence of events, in order. -/
def addsOf : List (SFEvent V) → List SFListener
  | [] => []
  | SFEvent.addListener l :: es => l :: addsOf es
  | SFEvent.setValue _ :: es => addsOf es

/-- Apply one event to the state, accumulating posts. -/
def sfStep (s : SFState V × List (SFPost V)) (e : SFEvent V) :
    SFState V × List (SFPost V) :=
  match e with
  | SFEvent.setValue v =>
    let r := sfSetValue v s.1
    (r.1, s.2 ++ r.2)
  | SFEvent.addListener l =>
    let r := sfAddListener l s.1
    (r.1, s.2 ++ r.2)

/-- Run a serialized event sequence against a freshly constructed state
(`State()` starts with no value and no listeners). -/
def sfRun (es : List (SFEvent V)) : SFState V × List (SFPost V) :=
  es.foldl sfStep ({ value := none, listeners := [] }, [])

/-! ### Coroutine adapter (future.h lines 384-595) -/

/-- The outcome of `FutureAwaiter<T>::OnReady` on a suspended frame: either
the frame is resumed with the delivered value (`value_ = std::move(value);
handle.resume();`) or it is destroyed (`handle.destroy(); return;`). -/
inductive OnReadyOutcome (V : Type) where
  | resumed (v : V)
  | destroyed
deriving Repr, DecidableEq

/-- `internal::CoroutinePromise::CanResume` (future.h lines 575-577):
`std::apply([](auto&&... args) { return (!!args && ...); }, ptrs_)` — the
conjunction of the validity of every captured weak capability.  A capability
set is modelled as the list of those validities (at settlement time);
`CoroutineArgPlaceholder` entries convert to `true`. -/
def canResume (caps : List Bool) : Bool :=
  caps.all (fun c => c)

/-- `internal::FutureAwaiter<T>::OnReady` (future.h lines 412-422): when the
awaited future settles with `v`, the frame is destroyed without resuming if
`CanResume()` is false, otherwise the value is stored and the frame is
resumed. -/
def onReady (caps : List Bool) (v : V) : OnReadyOutcome V :=
  if canResume caps then OnReadyOutcome.resumed v else OnReadyOutcome.destroyed

/-! ### Witness world for the back-reference-symmetry theorem (C9)

Two canonical pairs; the second pair's future and promise handles are moved
away, leaving a moved-from future slot (address 3) and a moved-from promise
slot (address 1) that serve as targets for the move-assignment cases, with
the first pair (future 1, promise 0) still intact. -/
def c9World : World Nat :=
  let r := newPromise (pairWorld Nat).2.2
  let r2 := getFuture r.1 r.2
  let m1 := moveFutureConstruct r2.1 r2.2
  let m2 := movePromiseConstruct r.1 m1.2
  m2.2

/-! ## Theorems -/

/-- C1: for every value `v` and every linked Promise/Future pair, calling
`SetValue(v)` on the promise and `AndThen(f)` on the future, in either order
and in either build configuration, never runs `f` synchronously inside either
call (the call log stays empty and exactly one task is posted, carrying `v`),
and draining the posted tasks then invokes `f` exactly once with `v`. -/
theorem setValue_andThen_exactly_once_deferred (V : Type) (dck : Bool) (v : V) :
    (c1OrderA V dck v).calls = [] ∧
    (c1OrderA V dck v).tasks = [(Cb.user 0, v)] ∧
    (c1OrderA V dck v).fatal = false ∧
    (drainTasks 20 dck (c1OrderA V dck v)).calls = [(0, v)] ∧
    (drainTasks 20 dck (c1OrderA V dck v)).tasks = [] ∧
    (c1OrderB V dck v).calls = [] ∧
    (c1OrderB V dck v).tasks = [(Cb.user 0, v)] ∧
    (c1OrderB V dck v).fatal = false ∧
    (drainTasks 20 dck (c1OrderB V dck v)).calls = [(0, v)] ∧
    (drainTasks 20 dck (c1OrderB V dck v)).tasks = [] := by
  cases dck <;> exact ⟨rfl, rfl, rfl, rfl, rfl, rfl, rfl, rfl, rfl, rfl⟩

/-- C2 counterexample: in a build with `DCHECK_IS_ON()` false the
`FutureActiveState::SetInactive` of future.h lines 55-61 is an empty no-op,
so a second `SetValue` on the same promise identity does NOT trigger the
fatal path (it is silently ignored and the first value survives), refuting
the claim that the fatal path is always taken. -/
theorem doubleSetValue_not_fatal_without_dchecks :
    (c2Double Nat false 5 7).fatal = false ∧
    getValueSynchronously 1 (c2Double Nat false 5 7) = some 5 := by
  exact ⟨rfl, rfl⟩

/-- C2 amended: a second `SetValue` after a successful first one triggers the
fatal path in DCHECK-enabled builds (the `CHECK(active_)` of future.h lines
46-49); in non-DCHECK builds it is a silent no-op that neither overwrites the
first delivered value nor posts or runs anything. -/
theorem doubleSetValue_fatal_only_in_dcheck_builds (V : Type) (v1 v2 : V) :
    (c2Double V true v1 v2).fatal = true ∧
    (c2Double V false v1 v2).fatal = false ∧
    getValueSynchronously (pairWorld V).1 (c2Double V false v1 v2) = some v1 ∧
    (c2Double V false v1 v2).tasks = [] ∧
    (c2Double V false v1 v2).calls = [] := by
  exact ⟨rfl, rfl, rfl, rfl, rfl⟩

/-- C3 counterexample: attaching to a valueless future whose promise was
destroyed without settling is NOT fatal, even in a DCHECK-enabled build: the
`SetInactive` check passes (first attach), `value_` is empty and
`promise_ptr_` is null, so `AndThen` (future.h lines 114-125) falls through
both branches and the callback is dropped. -/
theorem andThen_after_dead_promise_not_fatal :
    (c3Dangling Nat true).fatal = false ∧
    (c3Dangling Nat true).tasks = [] ∧
    (drainTasks 20 true (c3Dangling Nat true)).calls = [] := by
  exact ⟨rfl, rfl, rfl⟩

/-- C3 amended: calling `AndThen` on a future that holds no value and whose
promise was destroyed without settling silently drops the attachment in every
build configuration: no fatal check fires, nothing is posted, and the
callback is never invoked. -/
theorem andThen_after_dead_promise_silently_drops (V : Type) (dck : Bool) :
    (c3Dangling V dck).fatal = false ∧
    (c3Dangling V dck).tasks = [] ∧
    (c3Dangling V dck).calls = [] ∧
    (drainTasks 20 dck (c3Dangling V dck)).calls = [] := by
  cases dck <;> exact ⟨rfl, rfl, rfl, rfl⟩

/-- C4 counterexample: `GetValueSynchronously` (future.h line 110) is
`return std::move(value_);`, and moving from a `std::optional` leaves it
engaged, so the value is NOT consumed: on a future holding 5, a first poll
returns `some 5`, a subsequent poll still returns `some 5` (not `none` as the
claim requires — the operation does not modify the future at all), and a
subsequent `AndThen` still sees the stored value and posts the callback with
it. -/
theorem getValueSynchronously_does_not_consume :
    getValueSynchronously 1 (c4Settled Nat true 5) = some 5 ∧
    ¬ (getValueSynchronously 1 (c4Settled Nat true 5) = none) ∧
    (futureAndThen true 1 (Cb.user 0) (c4Settled Nat true 5)).tasks
      = [(Cb.user 0, 5)] := by
  refine ⟨rfl, ?_, rfl⟩
  decide

/-- C4 amended: on a future holding an arrived value `v`,
`GetValueSynchronously` returns `some v` but does not consume it: the member
optional stays engaged (holding a moved-from value, identical to `v` for
trivially copyable types), so any subsequent poll returns `some v` again
(`getValueSynchronously` does not change the world, so repolling is the same
call), and a subsequent `AndThen` sees the stored value, posts the callback
with it, and draining invokes it. -/
theorem getValueSynchronously_returns_without_consuming (V : Type) (dck : Bool)
    (v : V) :
    getValueSynchronously (pairWorld V).1 (c4Settled V dck v) = some v ∧
    (futureAndThen dck (pairWorld V).1 (Cb.user 0) (c4Settled V dck v)).tasks
      = [(Cb.user 0, v)] ∧
    (drainTasks 20 dck
        (futureAndThen dck (pairWorld V).1 (Cb.user 0) (c4Settled V dck v))).calls
      = [(0, v)] := by
  cases dck <;> exact ⟨rfl, rfl, rfl⟩

/-- The explicit settled configuration `c8Start` agrees with the one actually
produced by running `SetValue(v)` on the canonical pair (`c4Settled`) on
every observable field, in both build configurations. -/
theorem c4Settled_agrees_c8Start (V : Type) (dck : Bool) (v : V) :
    (c4Settled V dck v).nextF = (c8Start V dck v).nextF ∧
    (c4Settled V dck v).nextP = (c8Start V dck v).nextP ∧
    (c4Settled V dck v).futures 0 = (c8Start V dck v).futures 0 ∧
    (c4Settled V dck v).futures 1 = (c8Start V dck v).futures 1 ∧
    (c4Settled V dck v).promises 0 = (c8Start V dck v).promises 0 ∧
    (c4Settled V dck v).tasks = (c8Start V dck v).tasks ∧
    (c4Settled V dck v).calls = (c8Start V dck v).calls ∧
    (c4Settled V dck v).fatal = (c8Start V dck v).fatal := by
  cases dck <;> exact ⟨rfl, rfl, rfl, rfl, rfl, rfl, rfl, rfl⟩

set_option maxHeartbeats 1600000 in
/-- C8: for a future settled with `v`, a pure `f` and a consumer `g`,
`future.Transform(f).AndThen(g)` runs nothing synchronously, and draining the
posted tasks invokes `g` exactly once with `f v` (the posted
`TransformFutureValue` task settles the inner promise with
`SetValueWithSideEffects`, which runs the registered `g` synchronously at the
bottom of the stack), in either build configuration. -/
theorem transform_andThen_observes_g_of_f (V : Type) (dck : Bool) (f : V → V)
    (v : V) :
    (c8Pipeline V dck f v).calls = [] ∧
    (c8Pipeline V dck f v).fatal = false ∧
    (drainTasks 5 dck (c8Pipeline V dck f v)).calls = [(0, f v)] ∧
    (drainTasks 5 dck (c8Pipeline V dck f v)).tasks = [] ∧
    (drainTasks 5 dck (c8Pipeline V dck f v)).fatal = false := by
  cases dck <;> exact ⟨rfl, rfl, rfl, rfl, rfl⟩

/-- Once the shared state holds no promise, every further `State::SetValue`
is the identity. -/
theorem foldl_spStateSetValue_none (dck : Bool) (w : World V) (vs : List V) :
    vs.foldl (spStateSetValue dck) ((none : Option Nat), w)
      = ((none : Option Nat), w) := by
  induction vs with
  | nil => rfl
  | cons a l ih => exact ih

/-- C5: with a consumer attached to the underlying future, the first
`State::SetValue` from any `SharedPromise` copy settles the underlying
promise and clears it (the held promise becomes `none`), every later
`SetValue` from any copy is a no-op (the whole run equals the state after
just the first call), no check fires, and after draining the posted work the
consumer observes exactly the first value, exactly once. -/
theorem sharedPromise_first_write_wins (V : Type) (dck : Bool) (v : V)
    (vs : List V) :
    c5Run V dck (v :: vs) = spStateSetValue dck (c5Setup V dck) v ∧
    (c5Run V dck (v :: vs)).1 = none ∧
    (c5Run V dck (v :: vs)).2.fatal = false ∧
    (drainTasks 20 dck (c5Run V dck (v :: vs)).2).calls = [(0, v)] := by
  have hkey : c5Run V dck (v :: vs) = spStateSetValue dck (c5Setup V dck) v := by
    show List.foldl _ _ _ = _
    rw [List.foldl_cons]
    cases dck
    · exact foldl_spStateSetValue_none false _ vs
    · exact foldl_spStateSetValue_none true _ vs
  refine ⟨hkey, ?_, ?_, ?_⟩ <;> rw [hkey] <;> cases dck
  · rfl
  · rfl
  · rfl
  · rfl
  · rfl
  · rfl

/-- Running only listener registrations on an unsettled shared state appends
them, in order, to the pending list and posts nothing. -/
theorem sfFold_adds_pending (V : Type) :
    ∀ (pre : List (SFEvent V)) (L : List SFListener) (acc : List (SFPost V)),
      pre.all isAdd = true →
      pre.foldl sfStep ({ value := none, listeners := L }, acc)
        = ({ value := none, listeners := L ++ addsOf pre }, acc) := by
  intro pre
  induction pre with
  | nil =>
    intro L acc _
    simp [addsOf]
  | cons e es ih =>
    intro L acc h
    cases e with
    | setValue u => simp [isAdd, List.all_cons] at h
    | addListener l =>
      have h2 : es.all isAdd = true := by simpa [isAdd, List.all_cons] using h
      have step :
          sfStep (({ value := none, listeners := L } : SFState V), acc)
              (SFEvent.addListener l)
            = ({ value := none, listeners := L ++ [l] }, acc) := by
        simp [sfStep, sfAddListener]
      rw [List.foldl_cons, step, ih (L ++ [l]) acc h2]
      simp [addsOf, List.append_assoc]

/-- Running any events on a settled shared state leaves the value in place
forever, keeps the pending list empty, ignores further settlements, and
immediately posts each newly registered listener (to its own runner) with
the settled value. -/
theorem sfFold_after_settled (V : Type) (v : V) :
    ∀ (post : List (SFEvent V)) (acc : List (SFPost V)),
      post.foldl sfStep ({ value := some v, listeners := [] }, acc)
        = ({ value := some v, listeners := [] },
           acc ++ (addsOf post).map (deliver v)) := by
  intro post
  induction post with
  | nil =>
    intro acc
    simp [addsOf]
  | cons e es ih =>
    intro acc
    cases e with
    | setValue u =>
      have step :
          sfStep (({ value := some v, listeners := [] } : SFState V), acc)
              (SFEvent.setValue u)
            = ({ value := some v, listeners := [] }, acc) := by
        simp [sfStep, sfSetValue]
      rw [List.foldl_cons, step, ih acc]
      simp [addsOf]
    | addListener l =>
      have step :
          sfStep (({ value := some v, listeners := [] } : SFState V), acc)
              (SFEvent.addListener l)
            = ({ value := some v, listeners := [] }, acc ++ [deliver v l]) := by
        simp [sfStep, sfAddListener]
      rw [List.foldl_cons, step, ih (acc ++ [deliver v l])]
      simp [addsOf, List.append_assoc]

/-- C6: for a `SharedFuture` whose state receives listener registrations
`pre` before settlement, then the settling `SetValue v`, then any further
serialized events `post` (late registrations and ignored re-settlements):
every listener ever registered is posted exactly once, carrying the settled
value `v` and targeted at its own task runner (never invoked inline — the
state only ever posts); the listeners pending at settlement are dispatched in
registration order; late listeners are posted at registration time; and the
state retains the value forever (and an empty pending list). -/
theorem sharedFuture_fanout (V : Type) (pre post : List (SFEvent V)) (v : V)
    (h : pre.all isAdd = true) :
    sfRun (pre ++ SFEvent.setValue v :: post)
      = ({ value := some v, listeners := [] },
         (addsOf pre).map (deliver v) ++ (addsOf post).map (deliver v)) := by
  unfold sfRun
  rw [List.foldl_append, sfFold_adds_pending V pre [] [] h, List.foldl_cons]
  have step :
      sfStep (({ value := none, listeners := [] ++ addsOf pre } : SFState V),
          ([] : List (SFPost V))) (SFEvent.setValue v)
        = ({ value := some v, listeners := [] },
           (addsOf pre).map (deliver v)) := by
    simp [sfStep, sfSetValue]
  rw [step, sfFold_after_settled V v post]

/-- C6 witness: two listeners registered before settlement, one after (with a
spurious second settlement in between): all three are posted exactly once
with the first settled value 7, in order, each to its own runner, and the
state still holds 7. -/
theorem sharedFuture_fanout_witness :
    ([SFEvent.addListener ⟨100, 10⟩,
      SFEvent.addListener ⟨101, 11⟩].all (isAdd (V := Nat)) = true) ∧
    sfRun ([SFEvent.addListener ⟨100, 10⟩, SFEvent.addListener ⟨101, 11⟩]
        ++ SFEvent.setValue 7
          :: [SFEvent.setValue 9, SFEvent.addListener ⟨102, 12⟩])
      = ({ value := some 7, listeners := [] },
         [⟨10, 100, 7⟩, ⟨11, 101, 7⟩, ⟨12, 102, 7⟩]) := by
  refine ⟨rfl, ?_⟩
  rw [sharedFuture_fanout Nat
    [SFEvent.addListener ⟨100, 10⟩, SFEvent.addListener ⟨101, 11⟩]
    [SFEvent.setValue 9, SFEvent.addListener ⟨102, 12⟩] 7 rfl]
  rfl

/-- C7: a suspended coroutine frame whose awaited future settles with `v` is
resumed (with the delivered value) exactly when every captured weak
capability is still valid at that moment; if any capability has been
invalidated, `OnReady` destroys the frame without resuming it, so no code
after the await point runs. -/
theorem coroutine_resume_gated_on_capabilities (V : Type) (caps : List Bool)
    (v : V) :
    (onReady caps v = OnReadyOutcome.resumed v ↔ ∀ c ∈ caps, c = true) ∧
    ((∃ c ∈ caps, c = false) → onReady caps v = OnReadyOutcome.destroyed) := by
  have hall : canResume caps = true ↔ ∀ c ∈ caps, c = true := by
    simp [canResume, List.all_eq_true]
  have hfalse : ∀ c, c ∈ caps → c = false → canResume caps = false := by
    intro c hc hcf
    cases hr : canResume caps
    · rfl
    · exact absurd (hall.mp hr c hc) (by simp [hcf])
  constructor
  · constructor
    · intro hres
      by_contra hno
      push_neg at hno
      obtain ⟨c, hc, hcne⟩ := hno
      have hcf : c = false := by
        cases c with
        | false => rfl
        | true => exact absurd rfl hcne
      have h := hfalse c hc hcf
      simp only [onReady, h] at hres
      simp at hres
    · intro h2
      have h := hall.mpr h2
      simp [onReady, h]
  · rintro ⟨c, hc, hcf⟩
    have h := hfalse c hc hcf
    simp [onReady, h]

/-- C7 witness: with both capabilities valid the frame resumes with the
value; with one capability invalidated the frame is destroyed. -/
theorem coroutine_resume_gated_witness :
    onReady [true, true] (3 : Nat) = OnReadyOutcome.resumed 3 ∧
    onReady [true, false] (3 : Nat) = OnReadyOutcome.destroyed := by
  constructor
  · exact (coroutine_resume_gated_on_capabilities Nat [true, true] 3).1.mpr
      (by decide)
  · exact (coroutine_resume_gated_on_capabilities Nat [true, false] 3).2
      ⟨false, by decide, rfl⟩

/-- C10: `Promise::GetFuture` (future.h lines 224-230) may be called once:
the first call transfers the future out of the promise (the returned handle
at address 1 is linked to the promise, whose owned `future_` is now empty)
without any fatality; a second call fails the unconditional
`CHECK(future_)`, which is fatal in every build configuration (which is why
the model of `getFuture` takes no DCHECK parameter at all). -/
theorem getFuture_at_most_once (V : Type) :
    (c10First V).2.fatal = false ∧
    (c10First V).1 = 1 ∧
    (c10First V).2.futures 1
      = some { value := none, promisePtr := some 0, active := true } ∧
    (c10First V).2.promises 0
      = some { ownedFuture := none, futurePtr := some 1, callback := none,
               active := true } ∧
    (c10Second V).fatal = true := by
  exact ⟨rfl, rfl, rfl, rfl, rfl⟩

/-- Writing future-heap slot `a` makes that slot hold the written object. -/
theorem setF_futures_self (a : Nat) (obj : Option (FutureObj V)) (w : World V) :
    (setF a obj w).futures a = obj := by
  simp [setF]

/-- Writing future-heap slot `a` leaves every other slot unchanged. -/
theorem setF_futures_ne {b a : Nat} (h : b ≠ a) (obj : Option (FutureObj V)) (w : World V) :
    (setF a obj w).futures b = w.futures b := by
  simp [setF, h]

/-- Writing promise-heap slot `a` makes that slot hold the written object. -/
theorem setP_promises_self (a : Nat) (obj : Option (PromiseObj V)) (w : World V) :
    (setP a obj w).promises a = obj := by
  simp [setP]

/-- Writing promise-heap slot `a` leaves every other slot unchanged. -/
theorem setP_promises_ne {b a : Nat} (h : b ≠ a) (obj : Option (PromiseObj V)) (w : World V) :
    (setP a obj w).promises b = w.promises b := by
  simp [setP, h]

/-- Characterisation of the future move-assignment body on a linked source:
the destination receives the source fields, the source keeps its (moved-from)
value but loses its pointer and active state, and the linked promise is
re-pointed at the destination. -/
theorem moveFutureInto_linked {w : World V} {s d p : Nat} {S : FutureObj V}
    (hsd : s ≠ d) (hS : w.futures s = some S)
    (hD : (w.futures d).isSome = true) (hSp : S.promisePtr = some p) :
    moveFutureInto s d w
      = updP p (fun X => { X with futurePtr := some d })
          (setF s (some { value := S.value, promisePtr := none, active := false })
            (setF d (some { value := S.value, promisePtr := S.promisePtr, active := S.active }) w)) := by
  rcases Option.isSome_iff_exists.mp hD with ⟨D, hDD⟩
  simp only [moveFutureInto, if_neg hsd, hS, hDD, hSp]

/-- Characterisation of the promise move-assignment body when neither side
owns an un-extracted future (the normal post-`GetFuture` configuration): the
destination receives `future_ptr_`, callback and active state, the source is
fully unlinked, and the linked future is re-pointed at the destination. -/
theorem movePromiseInto_simple {w : World V} {s d f : Nat} {S D : PromiseObj V}
    (hsd : s ≠ d) (hS : w.promises s = some S) (hD : w.promises d = some D)
    (hSo : S.ownedFuture = none) (hDo : D.ownedFuture = none)
    (hSf : S.futurePtr = some f) :
    movePromiseInto s d w
      = updF f (fun X => { X with promisePtr := some d })
          (setP s (some { S with futurePtr := none, callback := none, active := false })
            (setP d (some { D with ownedFuture := none, futurePtr := S.futurePtr, callback := S.callback, active := S.active }) w)) := by
  simp only [movePromiseInto, if_neg hsd, hS, hD, hSo, hDo, hSf]

/-- Characterisation of the future destructor on a linked future: the linked
promise loses its back-pointer and the slot dies. -/
theorem destroyFuture_linked {w : World V} {a p : Nat} {F : FutureObj V}
    (hF : w.futures a = some F) (hFp : F.promisePtr = some p) :
    destroyFuture a w
      = setF a none (updP p (fun X => { X with futurePtr := none }) w) := by
  simp only [destroyFuture, hF, hFp]

/-- Characterisation of the promise destructor on a linked promise with no
owned future: the linked future loses its back-pointer and the slot dies. -/
theorem destroyPromise_linked {w : World V} {a f : Nat} {P : PromiseObj V}
    (hP : w.promises a = some P) (hPf : P.futurePtr = some f)
    (hPo : P.ownedFuture = none) :
    destroyPromise a w
      = setP a none (updF f (fun X => { X with promisePtr := none }) w) := by
  simp only [destroyPromise, hP, hPf, hPo]

/-- C9: back-reference symmetry of a linked Future/Promise pair (future at
`fa`, promise at `pa`, each pointing at the other, the future already
extracted from the promise) is maintained by every move and destruction:
move-constructing or move-assigning the future handle (to the fresh slot or
onto an existing handle at `d`) re-points the promise at the new location and
unlinks the moved-from handle; move-constructing or move-assigning the
promise handle likewise re-points the future and unlinks the moved-from
handle; destroying the future nulls the surviving promise back-pointer,
and destroying the promise nulls the surviving future back-pointer. -/
theorem backref_symmetry_invariant (V : Type) (w : World V) (fa pa d q : Nat)
    (F : FutureObj V) (P : PromiseObj V) (D : FutureObj V) (Q : PromiseObj V)
    (hF : w.futures fa = some F) (hP : w.promises pa = some P)
    (hFP : F.promisePtr = some pa) (hPF : P.futurePtr = some fa)
    (hPo : P.ownedFuture = none)
    (hD : w.futures d = some D) (hdfa : fa ≠ d)
    (hQ : w.promises q = some Q) (hQo : Q.ownedFuture = none) (hqpa : pa ≠ q)
    (hfa : fa < w.nextF) (hpa : pa < w.nextP) :
    ((moveFutureConstruct fa w).2.promises pa
      = some { P with futurePtr := some (moveFutureConstruct fa w).1 }) ∧
    ((moveFutureConstruct fa w).2.futures fa
      = some { value := F.value, promisePtr := none, active := false }) ∧
    ((moveFutureConstruct fa w).2.futures (moveFutureConstruct fa w).1
      = some { value := F.value, promisePtr := some pa, active := F.active }) ∧
    ((moveFutureInto fa d w).promises pa = some { P with futurePtr := some d }) ∧
    ((moveFutureInto fa d w).futures fa
      = some { value := F.value, promisePtr := none, active := false }) ∧
    ((moveFutureInto fa d w).futures d
      = some { value := F.value, promisePtr := some pa, active := F.active }) ∧
    ((movePromiseConstruct pa w).2.futures fa
      = some { F with promisePtr := some (movePromiseConstruct pa w).1 }) ∧
    ((movePromiseConstruct pa w).2.promises pa
      = some { P with futurePtr := none, callback := none, active := false }) ∧
    ((movePromiseConstruct pa w).2.promises (movePromiseConstruct pa w).1
      = some { ownedFuture := none, futurePtr := some fa, callback := P.callback, active := P.active }) ∧
    ((movePromiseInto pa q w).futures fa = some { F with promisePtr := some q }) ∧
    ((movePromiseInto pa q w).promises pa
      = some { P with futurePtr := none, callback := none, active := false }) ∧
    ((movePromiseInto pa q w).promises q
      = some { Q with ownedFuture := none, futurePtr := some fa, callback := P.callback, active := P.active }) ∧
    ((destroyFuture fa w).promises pa = some { P with futurePtr := none }) ∧
    ((destroyFuture fa w).futures fa = none) ∧
    ((destroyPromise pa w).futures fa = some { F with promisePtr := none }) ∧
    ((destroyPromise pa w).promises pa = none) := by
  have hne : fa ≠ w.nextF := Nat.ne_of_lt hfa
  have hne2 : w.nextF ≠ fa := Ne.symm hne
  have hpe : pa ≠ w.nextP := Nat.ne_of_lt hpa
  have hpe2 : w.nextP ≠ pa := Ne.symm hpe
  have hdfa2 : d ≠ fa := Ne.symm hdfa
  have hqpa2 : q ≠ pa := Ne.symm hqpa
  have hw1F : (setF w.nextF (some { value := none, promisePtr := none, active := true }) { w with nextF := w.nextF + 1 }).futures fa = some F := by
    rw [setF_futures_ne hne]
    exact hF
  have hw1D : ((setF w.nextF (some { value := none, promisePtr := none, active := true }) { w with nextF := w.nextF + 1 }).futures w.nextF).isSome = true := by
    rw [setF_futures_self]
    rfl
  have hmca : moveFutureConstruct fa w
      = (w.nextF,
         updP pa (fun X => { X with futurePtr := some w.nextF })
           (setF fa (some { value := F.value, promisePtr := none, active := false })
             (setF w.nextF (some { value := F.value, promisePtr := F.promisePtr, active := F.active })
               (setF w.nextF (some { value := none, promisePtr := none, active := true }) { w with nextF := w.nextF + 1 })))) := by
    simp only [moveFutureConstruct]
    rw [moveFutureInto_linked hne hw1F hw1D hFP]
  have hDsome : (w.futures d).isSome = true := by
    rw [hD]
    rfl
  have hmb : moveFutureInto fa d w
      = updP pa (fun X => { X with futurePtr := some d })
          (setF fa (some { value := F.value, promisePtr := none, active := false })
            (setF d (some { value := F.value, promisePtr := F.promisePtr, active := F.active }) w)) :=
    moveFutureInto_linked hdfa hF hDsome hFP
  have hw2P : (setP w.nextP (some { ownedFuture := none, futurePtr := none, callback := none, active := true }) { w with nextP := w.nextP + 1 }).promises pa = some P := by
    rw [setP_promises_ne hpe]
    exact hP
  have hw2Q : (setP w.nextP (some { ownedFuture := none, futurePtr := none, callback := none, active := true }) { w with nextP := w.nextP + 1 }).promises w.nextP = some { ownedFuture := none, futurePtr := none, callback := none, active := true } := by
    rw [setP_promises_self]
  have hmcp : movePromiseConstruct pa w
      = (w.nextP,
         updF fa (fun X => { X with promisePtr := some w.nextP })
           (setP pa (some { P with futurePtr := none, callback := none, active := false })
             (setP w.nextP (some { ownedFuture := none, futurePtr := P.futurePtr, callback := P.callback, active := P.active })
               (setP w.nextP (some { ownedFuture := none, futurePtr := none, callback := none, active := true }) { w with nextP := w.nextP + 1 })))) := by
    simp only [movePromiseConstruct]
    rw [movePromiseInto_simple hpe hw2P hw2Q hPo rfl hPF]
  have hmd : movePromiseInto pa q w
      = updF fa (fun X => { X with promisePtr := some q })
          (setP pa (some { P with futurePtr := none, callback := none, active := false })
            (setP q (some { Q with ownedFuture := none, futurePtr := P.futurePtr, callback := P.callback, active := P.active }) w)) :=
    movePromiseInto_simple hqpa hP hQ hPo hQo hPF
  have hdf : destroyFuture fa w
      = setF fa none (updP pa (fun X => { X with futurePtr := none }) w) :=
    destroyFuture_linked hF hFP
  have hdp : destroyPromise pa w
      = setP pa none (updF fa (fun X => { X with promisePtr := none }) w) :=
    destroyPromise_linked hP hPF hPo
  refine ⟨?_, ?_, ?_, ?_, ?_, ?_, ?_, ?_, ?_, ?_, ?_, ?_, ?_, ?_, ?_, ?_⟩
  · rw [hmca]
    simp only [updP, updF, setF, setP, hP, hF, hFP, hPF, hne, hne2, hpe, hpe2, hdfa, hdfa2, hqpa, hqpa2, if_true, if_false]
  · rw [hmca]
    simp only [updP, updF, setF, setP, hP, hF, hFP, hPF, hne, hne2, hpe, hpe2, hdfa, hdfa2, hqpa, hqpa2, if_true, if_false]
  · rw [hmca]
    simp only [updP, updF, setF, setP, hP, hF, hFP, hPF, hne, hne2, hpe, hpe2, hdfa, hdfa2, hqpa, hqpa2, if_true, if_false]
  · rw [hmb]
    simp only [updP, updF, setF, setP, hP, hF, hFP, hPF, hne, hne2, hpe, hpe2, hdfa, hdfa2, hqpa, hqpa2, if_true, if_false]
  · rw [hmb]
    simp only [updP, updF, setF, setP, hP, hF, hFP, hPF, hne, hne2, hpe, hpe2, hdfa, hdfa2, hqpa, hqpa2, if_true, if_false]
  · rw [hmb]
    simp only [updP, updF, setF, setP, hP, hF, hFP, hPF, hne, hne2, hpe, hpe2, hdfa, hdfa2, hqpa, hqpa2, if_true, if_false]
  · rw [hmcp]
    simp only [updP, updF, setF, setP, hP, hF, hFP, hPF, hne, hne2, hpe, hpe2, hdfa, hdfa2, hqpa, hqpa2, if_true, if_false]
  · rw [hmcp]
    simp only [updP, updF, setF, setP, hP, hF, hFP, hPF, hne, hne2, hpe, hpe2, hdfa, hdfa2, hqpa, hqpa2, if_true, if_false]
  · rw [hmcp]
    simp only [updP, updF, setF, setP, hP, hF, hFP, hPF, hne, hne2, hpe, hpe2, hdfa, hdfa2, hqpa, hqpa2, if_true, if_false]
  · rw [hmd]
    simp only [updP, updF, setF, setP, hP, hF, hFP, hPF, hne, hne2, hpe, hpe2, hdfa, hdfa2, hqpa, hqpa2, if_true, if_false]
  · rw [hmd]
    simp only [updP, updF, setF, setP, hP, hF, hFP, hPF, hne, hne2, hpe, hpe2, hdfa, hdfa2, hqpa, hqpa2, if_true, if_false]
  · rw [hmd]
    simp only [updP, updF, setF, setP, hP, hF, hFP, hPF, hne, hne2, hpe, hpe2, hdfa, hdfa2, hqpa, hqpa2, if_true, if_false]
  · rw [hdf]
    simp only [updP, updF, setF, setP, hP, hF, hFP, hPF, hne, hne2, hpe, hpe2, hdfa, hdfa2, hqpa, hqpa2, if_true, if_false]
  · rw [hdf]
    simp only [updP, updF, setF, setP, hP, hF, hFP, hPF, hne, hne2, hpe, hpe2, hdfa, hdfa2, hqpa, hqpa2, if_true, if_false]
  · rw [hdp]
    simp only [updP, updF, setF, setP, hP, hF, hFP, hPF, hne, hne2, hpe, hpe2, hdfa, hdfa2, hqpa, hqpa2, if_true, if_false]
  · rw [hdp]
    simp only [updP, updF, setF, setP, hP, hF, hFP, hPF, hne, hne2, hpe, hpe2, hdfa, hdfa2, hqpa, hqpa2, if_true, if_false]

/-- C9 witness: in the two-pair witness world (live pair: future 1, promise
0; moved-from handles at future slot 3 and promise slot 1), move-constructing
the future re-points the promise at the fresh slot, and destroying the
promise kills its slot. -/
theorem backref_symmetry_invariant_witness :
    ((moveFutureConstruct 1 c9World).2.promises 0
      = some { ownedFuture := none,
               futurePtr := some (moveFutureConstruct 1 c9World).1,
               callback := none, active := true }) ∧
    (destroyPromise 0 c9World).promises 0 = none := by
  have h := backref_symmetry_invariant Nat c9World 1 0 3 1
    ⟨none, some 0, true⟩ ⟨none, some 1, none, true⟩
    ⟨none, none, false⟩ ⟨none, none, none, false⟩
    rfl rfl rfl rfl rfl rfl (by decide) rfl rfl (by decide) (by decide)
    (by decide)
  exact ⟨h.1, h.2.2.2.2.2.2.2.2.2.2.2.2.2.2.2⟩

end ChromiumFutures
